import Mathlib

/-!
Verification of the entity-interpretation and transform pipeline of
`umodel_tools/map_importer.py` (classes `InstanceTransform`, `StaticMesh`,
`GameLight`, `MapImporter._import_map`).

Modelling conventions:
* JSON values are modelled by the inductive `JValue`; a parsed Python dict is
  `JValue.obj` with unique keys, `None` is `JValue.null`.
* Python numbers are modelled by `ℚ` (every finite Python float is rational;
  the claims under check are about the formulas, not rounding).
* Fallible Python code (code that can raise) is modelled in `Except PyErr`.
* The external collaborators (`math.radians`, `mathutils.Quaternion.to_euler`,
  `mathutils.Matrix.LocRotScale`, `os.path.normpath`, `os.sep`) are not code of
  this repository; they are injected through the `MathUtils` record, and the
  theorems quantify over it.  `mathutils.Matrix.__matmul__` is ordinary 4x4
  matrix multiplication and is modelled concretely by `M4.mul`.
* The asset resolver (`AssetImporter._load_asset`) is an external collaborator
  returning a Blender object or `None`; it is injected as a function
  `String → Option BlenderObj`.
* Linking an object into a `bpy` collection is modelled by returning the
  linked objects in order; `MapImporter._import_map` accumulates the contents
  of its import collection and the extra links made to the scene root
  collection.
-/

/-- Python exception kinds that the modelled code can raise. -/
inductive PyErr where
  | typeError
  | attributeError
  | nameError
  | jsonError
  deriving DecidableEq, Repr

/-- A JSON value as produced by `json.load`. -/
inductive JValue where
  | null
  | bool (b : Bool)
  | num (q : ℚ)
  | str (s : String)
  | arr (elems : List JValue)
  | obj (fields : List (String × JValue))

/-- Python truthiness (`if not x`) of a JSON value. -/
def JValue.truthy : JValue → Bool
  | .null => false
  | .bool b => b
  | .num q => q != 0
  | .str s => s != ""
  | .arr xs => !xs.isEmpty
  | .obj fs => !fs.isEmpty

/-- `v.get(k)` on a dict: `none` when the key is absent.  Calling `.get` on a
non-dict raises `AttributeError`. -/
def JValue.lookup : JValue → String → Except PyErr (Option JValue)
  | .obj fs, k => .ok ((fs.find? (fun p => p.1 == k)).map (fun p => p.2))
  | _, _ => .error .attributeError

/-- `v.get(k, d)` with an explicit default. -/
def JValue.pyGetD (v : JValue) (k : String) (d : JValue) : Except PyErr JValue := do
  match ← v.lookup k with
  | some x => pure x
  | none => pure d

/-- `v.get(k, None)` (also `v.get(k)`), with `None` rendered as `JValue.null`.
A stored JSON `null` and an absent key are indistinguishable here, exactly as
`None` stored under the key is indistinguishable from absence for the
`is not None` and truthiness tests the source performs on these reads. -/
def JValue.pyGet (v : JValue) (k : String) : Except PyErr JValue :=
  v.pyGetD k .null

/-- Coercion of a JSON value into a number, as Python arithmetic does it:
numbers are themselves, booleans are 0/1, everything else raises `TypeError`. -/
def JValue.toQ : JValue → Except PyErr ℚ
  | .num q => .ok q
  | .bool b => .ok (if b then 1 else 0)
  | _ => .error .typeError

/-- `v.get(k)` followed by use as a number (e.g. `pos.get("X") / 100`):
an absent key yields `None` and the arithmetic raises `TypeError`. -/
def JValue.getNum (v : JValue) (k : String) : Except PyErr ℚ := do
  (← v.pyGet k).toQ

/-- `v.get(k, d)` for a numeric default (e.g. `scale.get("X", 1)`) followed by
numeric use.  Python stores a non-numeric present value as-is and only fails
later at the mathutils/bpy boundary; the model raises at this read instead.
No claim distinguishes the two failure points. -/
def JValue.getNumD (v : JValue) (k : String) (d : ℚ) : Except PyErr ℚ := do
  match ← v.lookup k with
  | some x => x.toQ
  | none => pure d

/-- Structural list-of-chars split (the semantics of `str.split("." )` for a
one-character separator): `"".split(".") == [""]`, separators delimit
possibly-empty fields. -/
def splitChars (sep : Char) : List Char → List (List Char)
  | [] => [[]]
  | c :: cs =>
      let r := splitChars sep cs
      if c == sep then [] :: r
      else
        match r with
        | [] => [[c]]
        | h :: t => (c :: h) :: t

/-- `object_path.split(".")`. -/
def strSplitDot (s : String) : List String :=
  (splitChars '.' s.data).map String.mk

/-- Whether the first list is an initial segment of the second. -/
def leadsWith : List Char → List Char → Bool
  | [], _ => true
  | _ :: _, [] => false
  | c :: cs, d :: ds => c == d && leadsWith cs ds

/-- Whether the first list occurs contiguously inside the second. -/
def containsChars (needle : List Char) : List Char → Bool
  | [] => leadsWith needle []
  | c :: cs => leadsWith needle (c :: cs) || containsChars needle cs

/-- Python `needle in s` for strings (substring test). -/
def strContains (needle s : String) : Bool := containsChars needle.data s.data

/-- Python `'BasicShapes' in object_path`.  Valid on strings (substring),
lists (membership, where only equal strings can match the string needle) and
dicts (key membership); on other values Python raises `TypeError`. -/
def containsBasicShapes : JValue → Except PyErr Bool
  | .str s => .ok (strContains "BasicShapes" s)
  | .arr xs => .ok (xs.any (fun x => match x with
      | .str s => s == "BasicShapes"
      | _ => false))
  | .obj fs => .ok (fs.any (fun p => p.1 == "BasicShapes"))
  | _ => .error .typeError

/-- `split_object_path` from map_importer.py: keep only the part before the
first period when the path contains a period. -/
def split_object_path (object_path : String) : String :=
  let path_parts := strSplitDot object_path
  if path_parts.length > 1 then path_parts.headD object_path
  else object_path

/-- A coordinate triple. -/
structure V3 where
  x : ℚ
  y : ℚ
  z : ℚ
  deriving DecidableEq, Repr

/-- A row of a 4x4 matrix. -/
structure V4 where
  c0 : ℚ
  c1 : ℚ
  c2 : ℚ
  c3 : ℚ
  deriving DecidableEq, Repr

/-- A 4x4 matrix (the model of `mathutils.Matrix`). -/
structure M4 where
  r0 : V4
  r1 : V4
  r2 : V4
  r3 : V4
  deriving DecidableEq, Repr

def M4.col0 (m : M4) : V4 := ⟨m.r0.c0, m.r1.c0, m.r2.c0, m.r3.c0⟩
def M4.col1 (m : M4) : V4 := ⟨m.r0.c1, m.r1.c1, m.r2.c1, m.r3.c1⟩
def M4.col2 (m : M4) : V4 := ⟨m.r0.c2, m.r1.c2, m.r2.c2, m.r3.c2⟩
def M4.col3 (m : M4) : V4 := ⟨m.r0.c3, m.r1.c3, m.r2.c3, m.r3.c3⟩

def V4.dot (a b : V4) : ℚ := a.c0 * b.c0 + a.c1 * b.c1 + a.c2 * b.c2 + a.c3 * b.c3

def V4.mulRow (a : V4) (b : M4) : V4 := ⟨a.dot b.col0, a.dot b.col1, a.dot b.col2, a.dot b.col3⟩

/-- Matrix product, the meaning of `@` on `mathutils.Matrix`. -/
def M4.mul (a b : M4) : M4 := ⟨a.r0.mulRow b, a.r1.mulRow b, a.r2.mulRow b, a.r3.mulRow b⟩

/-- The external math collaborators used by map_importer.py.  The theorems
quantify over this record: they hold for whatever functions the real
`math`/`mathutils`/`os.path` libraries implement. -/
structure MathUtils where
  /-- `math.radians` (degrees to radians). -/
  radians : ℚ → ℚ
  /-- `mathutils.Quaternion((w, x, y, z)).to_euler()`: quaternion given in
  (W, X, Y, Z) component order, result an XYZ Euler triple. -/
  quatToEulerXYZ : ℚ → ℚ → ℚ → ℚ → V3
  /-- `mathutils.Matrix.LocRotScale(pos, euler_xyz, scale)`. -/
  locRotScale : V3 → V3 → V3 → M4
  /-- `os.path.normpath`. -/
  normpath : String → String
  /-- `os.sep` (a one-character string). -/
  sep : String

/-- `InstanceTransform` from map_importer.py with its constructor defaults. -/
structure InstanceTransform where
  pos : V3 := ⟨0, 0, 0⟩
  rot_euler : V3 := ⟨0, 0, 0⟩
  scale : V3 := ⟨1, 1, 1⟩
  deriving DecidableEq, Repr

/-- `InstanceTransform.matrix_4x4`:
`mu.Matrix.LocRotScale(self.pos, mu.Euler(self.rot_euler, "XYZ"), self.scale)`. -/
def InstanceTransform.matrix_4x4 (M : MathUtils) (t : InstanceTransform) : M4 :=
  M.locRotScale t.pos t.rot_euler t.scale

/-- `StaticMesh.static_mesh_types`. -/
def static_mesh_types : List String :=
  ["StaticMeshComponent",
   "InstancedStaticMeshComponent",
   "HierarchicalInstancedStaticMeshComponent"]

/-- The `StaticMesh` entity of map_importer.py.  `transform` is unassigned in
Python until the entity-type match runs; the Lean default stands in for the
unassigned attribute, which the source never reads on those paths. -/
structure StaticMesh where
  entity_name : JValue := .str ""
  asset_path : String := ""
  transform : InstanceTransform := {}
  instance_transforms : List InstanceTransform := []
  no_entity : Bool := false
  no_mesh : Bool := false
  no_path : Bool := false
  no_per_instance_data : Bool := false
  base_shape : Bool := false
  is_instanced : Bool := false
  not_rendered : Bool := false
  invisible : Bool := false
  bad_creation_method : Bool := false

/-- Lines 113-122 and 135-144 of map_importer.py (identical in both the
static and the instanced branch): read RelativeLocation / RelativeRotation /
RelativeScale3D from the component properties into an `InstanceTransform`. -/
def readRelativeTransform (M : MathUtils) (props : JValue) :
    Except PyErr InstanceTransform := do
  let mut trs : InstanceTransform := {}
  match ← props.pyGet "RelativeLocation" with
  | .null => pure ()
  | pos => do
      let x ← pos.getNum "X"
      let y ← pos.getNum "Y"
      let z ← pos.getNum "Z"
      trs := { trs with pos := ⟨x / 100, y / (-100), z / 100⟩ }
  match ← props.pyGet "RelativeRotation" with
  | .null => pure ()
  | rot => do
      let roll ← rot.getNum "Roll"
      let pitch ← rot.getNum "Pitch"
      let yaw ← rot.getNum "Yaw"
      trs := { trs with
        rot_euler := ⟨M.radians roll, M.radians (pitch * (-1)), M.radians (yaw * (-1))⟩ }
  match ← props.pyGet "RelativeScale3D" with
  | .null => pure ()
  | scale => do
      let sx ← scale.getNumD "X" 1
      let sy ← scale.getNumD "Y" 1
      let sz ← scale.getNumD "Z" 1
      trs := { trs with scale := ⟨sx, sy, sz⟩ }
  pure trs

/-- Lines 148-163 of map_importer.py: build one `InstanceTransform` from one
element of the `PerInstanceSMData` array. -/
def readInstanceTransform (M : MathUtils) (inst : JValue) :
    Except PyErr InstanceTransform := do
  let mut trs : InstanceTransform := {}
  match ← inst.pyGet "TransformData" with
  | .null => pure ()
  | trs_data => do
      match ← trs_data.pyGet "Translation" with
      | .null => pure ()
      | pos => do
          let x ← pos.getNum "X"
          let y ← pos.getNum "Y"
          let z ← pos.getNum "Z"
          trs := { trs with pos := ⟨x / 100, y / (-100), z / 100⟩ }
      match ← trs_data.pyGet "Rotation" with
      | .null => pure ()
      | rot => do
          let w ← rot.getNum "W"
          let x ← rot.getNum "X"
          let y ← rot.getNum "Y"
          let z ← rot.getNum "Z"
          let quat_to_euler := M.quatToEulerXYZ w x y z
          trs := { trs with
            rot_euler := ⟨-quat_to_euler.x, quat_to_euler.y, -quat_to_euler.z⟩ }
      match ← trs_data.pyGet "Scale3D" with
      | .null => pure ()
      | scale => do
          let sx ← scale.getNumD "X" 1
          let sy ← scale.getNumD "Y" 1
          let sz ← scale.getNumD "Z" 1
          trs := { trs with scale := ⟨sx, sy, sz⟩ }
  pure trs

/-- `StaticMesh.__init__(json_entity, entity_type)`. -/
def StaticMesh.init (M : MathUtils) (json_entity : JValue) (entity_type : String) :
    Except PyErr StaticMesh := do
  let entity_name ← json_entity.pyGetD "Outer" (.str "Error")
  let base : StaticMesh := { entity_name := entity_name }
  let props ← json_entity.pyGet "Properties"
  if !props.truthy then
    return { base with no_entity := true }
  let static_mesh_prop ← props.pyGet "StaticMesh"
  if !static_mesh_prop.truthy then
    return { base with no_mesh := true }
  let object_path ← static_mesh_prop.pyGet "ObjectPath"
  if !object_path.truthy then
    return { base with no_path := true }
  if ← containsBasicShapes object_path then
    return { base with base_shape := true }
  match ← props.pyGet "bRenderInMainPass" with
  | .null => pure ()
  | render_in_main_pass =>
      if !render_in_main_pass.truthy then
        return { base with not_rendered := true }
  let mut invisible := false
  match ← props.pyGet "bVisible" with
  | .null => pure ()
  | is_visbile =>
      if !is_visbile.truthy then
        invisible := true
  let mut bad_creation_method := false
  match ← props.pyGet "CreationMethod" with
  | .null => pure ()
  | .str s =>
      if s == "EComponentCreationMethod::UserConstructionScript" then
        bad_creation_method := true
  | _ => pure ()
  let path_str ← (match object_path with
    | .str s => pure s
    | _ => Except.error PyErr.attributeError)
  let objpath := split_object_path path_str
  let ap := M.normpath (objpath ++ ".uasset")
  let asset_path := if leadsWith M.sep.data ap.data then String.mk (ap.data.drop 1) else ap
  let base := { base with
    invisible := invisible,
    bad_creation_method := bad_creation_method,
    asset_path := asset_path }
  match entity_type with
  | "StaticMeshComponent" => do
      let trs ← readRelativeTransform M props
      return { base with transform := trs }
  | "InstancedStaticMeshComponent" | "HierarchicalInstancedStaticMeshComponent" => do
      let base := { base with is_instanced := true }
      match ← json_entity.pyGet "PerInstanceSMData" with
      | .null => return { base with no_per_instance_data := true }
      | instances => do
          let trs ← readRelativeTransform M props
          let elems ← (match instances with
            | .arr xs => pure xs
            | _ => Except.error PyErr.typeError)
          let its ← elems.mapM (readInstanceTransform M)
          return { base with transform := trs, instance_transforms := its }
  | _ => return base

/-- `StaticMesh.invalid` (lines 165-168): the disjunction of ALL the flags,
including `invisible` and `bad_creation_method`. -/
def StaticMesh.invalid (s : StaticMesh) : Bool :=
  s.no_path || s.no_entity || s.base_shape || s.no_mesh || s.no_per_instance_data
    || s.not_rendered || s.invisible || s.bad_creation_method

/-- The object handle returned by the external asset resolver
(`AssetImporter._load_asset`): a Blender object with a name and shared mesh
data (the data block is abstracted to a numeric handle). -/
structure BlenderObj where
  name : String
  data : Nat
  deriving DecidableEq, Repr

/-- An object created by `bpy.data.objects.new` and placed by
`link_object_instance`; only the attributes the source assigns are `some`. -/
structure PlacedObject where
  name : String
  data : Nat
  rotation_mode : String := ""
  matrix_world : Option M4 := none
  location : Option V3 := none
  scale : Option V3 := none
  rotation_euler : Option V3 := none
  deriving DecidableEq, Repr

/-- `StaticMesh.link_object_instance(obj, collection)`: the returned list is
both the function result and, in order, the objects linked into the target
collection. -/
def StaticMesh.link_object_instance (M : MathUtils) (s : StaticMesh)
    (obj : BlenderObj) : List PlacedObject :=
  if s.invalid then []
  else
    let trs := s.transform
    if s.is_instanced then
      s.instance_transforms.map (fun instance_trs =>
        { name := obj.name, data := obj.data, rotation_mode := "XYZ",
          matrix_world := some (M4.mul (trs.matrix_4x4 M) (instance_trs.matrix_4x4 M)) })
    else
      [{ name := obj.name, data := obj.data,
         scale := some trs.scale,
         location := some trs.pos,
         rotation_mode := "XYZ",
         rotation_euler := some trs.rot_euler }]

/-- `GameLight.light_types`. -/
def light_types : List String := ["SpotLightComponent", "PointLightComponent"]

/-- `GameLight.color_temp_table_r`: rows of (c0, c1, c2) with the red channel
evaluated as c0 / T + c1 * T + c2. -/
def color_temp_table_r : List (ℚ × ℚ × ℚ) :=
  [(2.52432244e3, -1.06185848e-3, 3.11067539),
   (3.37763626e3, -4.34581697e-4, 1.64843306),
   (4.10671449e3, -8.61949938e-5, 6.41423749e-1),
   (4.66849800e3, 2.85655028e-5, 1.29075375e-1),
   (4.60124770e3, 2.89727618e-5, 1.48001316e-1),
   (3.78765709e3, 9.36026367e-6, 3.98995841e-1)]

/-- `GameLight.color_temp_table_g`. -/
def color_temp_table_g : List (ℚ × ℚ × ℚ) :=
  [(-7.50343014e2, 3.15679613e-4, 4.73464526e-1),
   (-1.00402363e3, 1.29189794e-4, 9.08181524e-1),
   (-1.22075471e3, 2.56245413e-5, 1.20753416),
   (-1.42546105e3, -4.01730887e-5, 1.44002695),
   (-1.18134453e3, -2.18913373e-5, 1.30656109),
   (-5.00279505e2, -4.59745390e-6, 1.09090465)]

/-- `GameLight.color_temp_table_b`: cubic coefficients (b0, b1, b2, b3) with
the blue channel evaluated as ((b0 * T + b1) * T + b2) * T + b3. -/
def color_temp_table_b : List (ℚ × ℚ × ℚ × ℚ) :=
  [(0, 0, 0, 0),
   (0, 0, 0, 0),
   (0, 0, 0, 0),
   (-2.02524603e-11, 1.79435860e-7, -2.60561875e-4, -1.41761141e-2),
   (-2.22463426e-13, -1.55078698e-8, 3.81675160e-4, -7.30646033e-1),
   (6.72595954e-13, -2.73059993e-8, 4.24068546e-4, -7.52204323e-1)]

/-- The `GameLight` entity of map_importer.py with its class-level defaults.
`rot` keeps the raw JSON values for Roll and Pitch (the source stores them
unconverted); the Yaw slot holds the already-negated number, since
`rot.get("Yaw") * -1` forces it numeric at classification time. -/
structure GameLight where
  type : JValue := .str ""
  entity_name : JValue := .str ""
  pos : V3 := ⟨0, 0, 0⟩
  rot : JValue × JValue × JValue := (.num 0, .num 0, .num 0)
  scale : V3 := ⟨1, 1, 1⟩
  color : V3 := ⟨1, 1, 1⟩
  no_entity : Bool := false

/-- `GameLight.temp_to_color(temp)`. -/
def GameLight.temp_to_color (temp : ℚ) : V3 :=
  if 12000 ≤ temp then ⟨0.826270103, 0.994478524, 1.56626022⟩
  else if temp < 965 then ⟨4.70366907, 0, 0⟩
  else
    let i : Nat :=
      if 6365 ≤ temp then 5
      else if 3315 ≤ temp then 4
      else if 1902 ≤ temp then 3
      else if 1449 ≤ temp then 2
      else if 1167 ≤ temp then 1
      else 0
    let r := color_temp_table_r.getD i (0, 0, 0)
    let g := color_temp_table_g.getD i (0, 0, 0)
    let b := color_temp_table_b.getD i (0, 0, 0, 0)
    let temp_inv := 1 / temp
    ⟨r.1 * temp_inv + r.2.1 * temp + r.2.2,
     g.1 * temp_inv + g.2.1 * temp + g.2.2,
     ((b.1 * temp + b.2.1) * temp + b.2.2.1) * temp + b.2.2.2⟩

/-- `GameLight.invalid`. -/
def GameLight.invalid (g : GameLight) : Bool := g.no_entity

/-- `GameLight.__init__(json_entity)`. -/
def GameLight.init (json_entity : JValue) : Except PyErr GameLight := do
  let entity_name ← json_entity.pyGetD "Outer" (.str "Error")
  let ty ← json_entity.pyGet "Type"
  let base : GameLight := { entity_name := entity_name, type := ty }
  if !ty.truthy then
    return { base with no_entity := true }
  let props ← json_entity.pyGet "Properties"
  if !props.truthy then
    return { base with no_entity := true }
  let mut g := base
  let loc ← props.pyGet "RelativeLocation"
  if loc.truthy then
    let x ← loc.getNum "X"
    let y ← loc.getNum "Y"
    let z ← loc.getNum "Z"
    g := { g with pos := ⟨x / 100, y / (-100), z / 100⟩ }
  match ← props.pyGet "RelativeRotation" with
  | .null => pure ()
  | rot => do
      let roll ← rot.pyGet "Roll"
      let pitch ← rot.pyGet "Pitch"
      let yaw ← (← rot.pyGet "Yaw").toQ
      g := { g with rot := (roll, pitch, .num (yaw * (-1))) }
  let sc ← props.pyGet "RelativeScale3D"
  if sc.truthy then
    let sx ← sc.getNumD "X" 1
    let sy ← sc.getNumD "Y" 1
    let sz ← sc.getNumD "Z" 1
    g := { g with scale := ⟨sx, sy, sz⟩ }
  match ← props.pyGet "Temperature" with
  | .null => pure ()
  | t => do
      let temp ← t.toQ
      g := { g with color := GameLight.temp_to_color temp }
  return g

/-- A light object created by `bpy.data.lights.new` plus
`bpy.data.objects.new` and configured by `import_light`. -/
structure LightObject where
  name : JValue
  kind : String
  scale : V3
  location : V3
  rotation_mode : String
  rotation_euler : V3
  color : V3

/-- The observable outcome of `GameLight.import_light(collection)`: the
return value, the objects linked into the passed collection, and the objects
additionally linked into `bpy.context.scene.collection`. -/
structure LightImport where
  ret : Bool := false
  target_links : List LightObject := []
  scene_links : List LightObject := []

/-- `GameLight.import_light(self, collection)`.  When `self.type` matches no
case of the `match`, the Python local `light_data` stays unbound and the next
line raises `NameError`. -/
def GameLight.import_light (M : MathUtils) (g : GameLight) :
    Except PyErr LightImport := do
  if g.no_entity then
    return { ret := false }
  let kind ← (match g.type with
    | .str "SpotLightComponent" => pure "SPOT"
    | .str "PointLightComponent" => pure "POINT"
    | _ => Except.error PyErr.nameError)
  let roll ← g.rot.1.toQ
  let pitch ← g.rot.2.1.toQ
  let yaw ← g.rot.2.2.toQ
  let light_obj : LightObject :=
    { name := g.entity_name,
      kind := kind,
      scale := g.scale,
      location := g.pos,
      rotation_mode := "XYZ",
      rotation_euler := ⟨M.radians roll, M.radians pitch, M.radians yaw⟩,
      color := g.color }
  return { ret := true, target_links := [light_obj], scene_links := [light_obj] }

/-- One entry of the import collection built by `_import_map`. -/
inductive SceneItem where
  | mesh (o : PlacedObject)
  | light (o : LightObject)

/-- The source document handed to `_import_map`: the file can be missing
(`os.path.exists` is false), unparsable (`json.load` raises), or a parsed
top-level array of records. -/
inductive MapSource where
  | missing
  | unparsable
  | parsed (entities : List JValue)

/-- The observable outcome of `MapImporter._import_map`. -/
structure MapImportResult where
  ret : Bool
  import_collection : List SceneItem := []
  scene_extra_links : List LightObject := []
  reload_scheduled : Bool := false

/-- The per-record loop of `_import_map` (lines 385-428).  `lastMesh` is the
Python local `static_mesh`, bound only once some static-mesh-family record
has been classified; the invalid-light diagnostic string reads
`static_mesh.entity_name` and raises `NameError` when that local is unbound. -/
def MapImporter.importEntities (M : MathUtils) (resolve : String → Option BlenderObj) :
    List JValue → Option StaticMesh →
    Except PyErr (List SceneItem × List LightObject)
  | [], _ => .ok ([], [])
  | entity :: rest, lastMesh => do
      let ty ← entity.pyGet "Type"
      if !ty.truthy then
        MapImporter.importEntities M resolve rest lastMesh
      else
        match ty with
        | .str entity_type =>
          if entity_type ∈ static_mesh_types then do
            let static_mesh ← StaticMesh.init M entity entity_type
            if static_mesh.invalid then
              MapImporter.importEntities M resolve rest (some static_mesh)
            else
              match resolve static_mesh.asset_path with
              | none => MapImporter.importEntities M resolve rest (some static_mesh)
              | some obj => do
                  let objs := static_mesh.link_object_instance M obj
                  let (items, scene) ← MapImporter.importEntities M resolve rest (some static_mesh)
                  pure (objs.map SceneItem.mesh ++ items, scene)
          else if entity_type ∈ light_types then do
            let light ← GameLight.init entity
            if light.invalid then
              match lastMesh with
              | none => Except.error PyErr.nameError
              | some _ => MapImporter.importEntities M resolve rest lastMesh
            else do
              let res ← light.import_light M
              let (items, scene) ← MapImporter.importEntities M resolve rest lastMesh
              pure (res.target_links.map SceneItem.light ++ items, res.scene_links ++ scene)
          else
            MapImporter.importEntities M resolve rest lastMesh
        | _ => MapImporter.importEntities M resolve rest lastMesh

/-- `MapImporter._import_map`: returns `False` when the file does not exist;
`json.load` raising on an unparsable file propagates as an exception; else
all records are processed in order, the deferred library reload is scheduled,
and the function returns `True`. -/
def MapImporter.import_map (M : MathUtils) (resolve : String → Option BlenderObj)
    (src : MapSource) : Except PyErr MapImportResult := do
  match src with
  | .missing => return { ret := false }
  | .unparsable => Except.error PyErr.jsonError
  | .parsed entities => do
      let (items, scene) ← MapImporter.importEntities M resolve entities none
      return { ret := true,
               import_collection := items,
               scene_extra_links := scene,
               reload_scheduled := true }

/-!
Concrete fixtures and record builders used by the theorems below.  `M₀`,
`obj₀`, `R₀`, `R₂` are concrete stand-ins for the external collaborators,
used in witnesses and counterexamples; the universally quantified theorems
hold for every `MathUtils` and every resolver.
-/

/-- `LocRotScale` restricted to zero rotation: diagonal scale plus a
translation column.  Used as the matrix builder of the concrete test
environment `M₀`. -/
def locScaleMat (p s : V3) : M4 :=
  ⟨⟨s.x, 0, 0, p.x⟩, ⟨0, s.y, 0, p.y⟩, ⟨0, 0, s.z, p.z⟩, ⟨0, 0, 0, 1⟩⟩

/-- A concrete `MathUtils` environment for witnesses and counterexamples. -/
def M₀ : MathUtils :=
  { radians := fun q => q / 57,
    quatToEulerXYZ := fun w x y z => ⟨x + w, y + w, z + w⟩,
    locRotScale := fun p _ s => locScaleMat p s,
    normpath := fun s => s,
    sep := "/" }

/-- A concrete resolved Blender object. -/
def obj₀ : BlenderObj := ⟨"PropMesh", 7⟩

/-- A resolver that succeeds on every asset path. -/
def R₀ : String → Option BlenderObj := fun _ => some obj₀

/-- A resolver that succeeds only on the asset path of the builder records
(which is Game slash Prop.uasset under `M₀`) and fails on everything else. -/
def R₂ : String → Option BlenderObj :=
  fun p => if p == "Game/Prop.uasset" then some ⟨"MeshB", 2⟩ else none

def locJson (p : V3) : JValue :=
  .obj [("X", .num p.x), ("Y", .num p.y), ("Z", .num p.z)]

def rotJson (r : V3) : JValue :=
  .obj [("Roll", .num r.x), ("Pitch", .num r.y), ("Yaw", .num r.z)]

def quatJson (q : ℚ × ℚ × ℚ × ℚ) : JValue :=
  .obj [("W", .num q.1), ("X", .num q.2.1), ("Y", .num q.2.2.1), ("Z", .num q.2.2.2)]

def scaleJson (s : V3) : JValue :=
  .obj [("X", .num s.x), ("Y", .num s.y), ("Z", .num s.z)]

/-- The optional transform blocks of a component's Properties mapping. -/
def transformProps (loc rot scale : Option V3) : List (String × JValue) :=
  (match loc with
    | some p => [("RelativeLocation", locJson p)]
    | none => []) ++
  (match rot with
    | some r => [("RelativeRotation", rotJson r)]
    | none => []) ++
  (match scale with
    | some s => [("RelativeScale3D", scaleJson s)]
    | none => [])

def meshProps (loc rot scale : Option V3) : JValue :=
  .obj (("StaticMesh", JValue.obj [("ObjectPath", JValue.str "Game/Prop.2")])
    :: transformProps loc rot scale)

/-- A StaticMeshComponent record with the given optional transform blocks. -/
def mkStaticRecord (loc rot scale : Option V3) : JValue :=
  .obj [("Type", .str "StaticMeshComponent"), ("Outer", .str "Ent"),
        ("Properties", meshProps loc rot scale)]

/-- Parameters of one PerInstanceSMData element: `none` is an element with no
TransformData block; otherwise optional Translation, Rotation quaternion
(W, X, Y, Z) and Scale3D. -/
def InstParam : Type := Option (Option V3 × Option (ℚ × ℚ × ℚ × ℚ) × Option V3)

def mkInstanceJson : InstParam → JValue
  | none => .obj []
  | some (t, r, s) =>
      .obj [("TransformData", .obj (
        (match t with
          | some p => [("Translation", locJson p)]
          | none => []) ++
        (match r with
          | some q => [("Rotation", quatJson q)]
          | none => []) ++
        (match s with
          | some sc => [("Scale3D", scaleJson sc)]
          | none => [])))]

/-- An InstancedStaticMeshComponent record; `insts = none` omits the
PerInstanceSMData key entirely. -/
def mkInstancedRecord (loc rot scale : Option V3) (insts : Option (List InstParam)) : JValue :=
  .obj ([("Type", .str "InstancedStaticMeshComponent"), ("Outer", .str "Ent"),
         ("Properties", meshProps loc rot scale)] ++
        (match insts with
          | some ps => [("PerInstanceSMData", JValue.arr (ps.map mkInstanceJson))]
          | none => []))

def lightProps (loc rot scale : Option V3) (temp : Option ℚ) : JValue :=
  .obj (("Mobility", JValue.str "Static") ::
    (transformProps loc rot scale ++
      (match temp with
        | some t => [("Temperature", JValue.num t)]
        | none => [])))

/-- A light record of the given component type with optional blocks. -/
def mkLightRecord (ty : String) (loc rot scale : Option V3) (temp : Option ℚ) : JValue :=
  .obj [("Type", .str ty), ("Outer", .str "Lamp"),
        ("Properties", lightProps loc rot scale temp)]

/-- The documented position conversion: divide by 100, negate Y; defaults to
the origin when the block is absent. -/
def expectedPos : Option V3 → V3
  | none => ⟨0, 0, 0⟩
  | some p => ⟨p.x / 100, p.y / (-100), p.z / 100⟩

/-- The documented mesh rotation conversion: radians of roll, of negated
pitch and of negated yaw; zero when the block is absent. -/
def expectedMeshRot (M : MathUtils) : Option V3 → V3
  | none => ⟨0, 0, 0⟩
  | some r => ⟨M.radians r.x, M.radians (r.y * (-1)), M.radians (r.z * (-1))⟩

/-- Scale passes through unchanged; each absent axis defaults to 1. -/
def expectedScale : Option V3 → V3
  | none => ⟨1, 1, 1⟩
  | some s => ⟨s.x, s.y, s.z⟩

def expectedTransform (M : MathUtils) (loc rot scale : Option V3) : InstanceTransform :=
  { pos := expectedPos loc,
    rot_euler := expectedMeshRot M rot,
    scale := expectedScale scale }

/-- The documented per-instance conversion: identity when TransformData is
absent; otherwise converted translation, quaternion-to-Euler rotation with X
and Z negated, and pass-through scale. -/
def expectedInstance (M : MathUtils) : InstParam → InstanceTransform
  | none => {}
  | some (t, r, s) =>
      { pos := expectedPos t,
        rot_euler :=
          match r with
          | none => ⟨0, 0, 0⟩
          | some q => ⟨-(M.quatToEulerXYZ q.1 q.2.1 q.2.2.1 q.2.2.2).x,
                       (M.quatToEulerXYZ q.1 q.2.1 q.2.2.1 q.2.2.2).y,
                       -(M.quatToEulerXYZ q.1 q.2.1 q.2.2.1 q.2.2.2).z⟩,
        scale := expectedScale s }

/-- The asset path the builder records resolve to (before normalization the
object path Game slash Prop.2 loses its digit suffix and gains .uasset). -/
def expectedAssetPath (M : MathUtils) : String :=
  if leadsWith M.sep.data (M.normpath (split_object_path "Game/Prop.2" ++ ".uasset")).data
  then String.mk ((M.normpath (split_object_path "Game/Prop.2" ++ ".uasset")).data.drop 1)
  else M.normpath (split_object_path "Game/Prop.2" ++ ".uasset")

def expectedStatic (M : MathUtils) (loc rot scale : Option V3) : StaticMesh :=
  { entity_name := .str "Ent", asset_path := expectedAssetPath M,
    transform := expectedTransform M loc rot scale }

def expectedInstanced (M : MathUtils) (loc rot scale : Option V3)
    (its : List InstanceTransform) : StaticMesh :=
  { entity_name := .str "Ent", asset_path := expectedAssetPath M, is_instanced := true,
    transform := expectedTransform M loc rot scale, instance_transforms := its }

def expectedLight (ty : String) (loc rot scale : Option V3) (temp : Option ℚ) : GameLight :=
  { type := .str ty, entity_name := .str "Lamp",
    pos := expectedPos loc,
    rot :=
      match rot with
      | none => (.num 0, .num 0, .num 0)
      | some r => (.num r.x, .num r.y, .num (r.z * (-1))),
    scale := expectedScale scale,
    color :=
      match temp with
      | none => ⟨1, 1, 1⟩
      | some t => GameLight.temp_to_color t }

/-- A static-mesh record whose only set validity information is the advisory
bVisible = false flag. -/
def recInvisible : JValue :=
  .obj [("Type", .str "StaticMeshComponent"), ("Outer", .str "Wall"),
        ("Properties", .obj [
          ("StaticMesh", .obj [("ObjectPath", .str "Game/Wall.2")]),
          ("bVisible", .bool false)])]

/-- A spot-light record with an explicit RelativeRotation block. -/
def recLightYaw : JValue :=
  .obj [("Type", .str "SpotLightComponent"), ("Outer", .str "Lamp"),
        ("Properties", .obj [("RelativeRotation",
           .obj [("Roll", .num 10), ("Pitch", .num 20), ("Yaw", .num 30)])])]

/-- A structurally valid mesh record whose RelativeLocation block is present
but empty: `pos.get("X")` yields `None` and the division raises. -/
def recEmptyLoc : JValue :=
  .obj [("Type", .str "StaticMeshComponent"), ("Outer", .str "Crate"),
        ("Properties", .obj [
          ("StaticMesh", .obj [("ObjectPath", .str "Game/Crate.1")]),
          ("RelativeLocation", .obj [])])]

/-- A mesh record with a RelativeScale3D block carrying only the X axis. -/
def recPartialScale : JValue :=
  .obj [("Type", .str "StaticMeshComponent"), ("Outer", .str "Crate"),
        ("Properties", .obj [
          ("StaticMesh", .obj [("ObjectPath", .str "Game/Crate.1")]),
          ("RelativeScale3D", .obj [("X", .num 5)])])]

/-- A light record with no Properties: classification flags it `no_entity`. -/
def recBadLight : JValue :=
  .obj [("Type", .str "PointLightComponent"), ("Outer", .str "L1")]

/-- A valid light record with no transform blocks. -/
def recGoodLight : JValue :=
  .obj [("Type", .str "SpotLightComponent"), ("Outer", .str "L2"),
        ("Properties", .obj [("Mobility", .str "Static")])]

/-- A valid static-mesh record whose asset path (Game slash A.uasset) the
resolver `R₂` fails to resolve. -/
def recMeshA : JValue :=
  .obj [("Type", .str "StaticMeshComponent"), ("Outer", .str "A"),
        ("Properties", .obj [("StaticMesh", .obj [("ObjectPath", .str "Game/A.7")])])]

/-- A valid static-mesh record that `R₂` resolves to the object MeshB. -/
def recMeshB : JValue := mkStaticRecord (some ⟨100, 200, 300⟩) none none

def SceneItem.itemName : SceneItem → String
  | .mesh o => o.name
  | .light _ => "light"

def SceneItem.meshLocation : SceneItem → Option V3
  | .mesh o => o.location
  | .light _ => none

/-- The base-transform fixture for the composition-order check. -/
def B₅ : InstanceTransform := { pos := ⟨1, 0, 0⟩ }

/-- The instance-transform fixture for the composition-order check. -/
def I₅ : InstanceTransform := { scale := ⟨2, 2, 2⟩ }

/-- A classified instanced entity with base `B₅` and one instance `I₅`. -/
def sm₅ : StaticMesh := { is_instanced := true, transform := B₅, instance_transforms := [I₅] }

/-- A classified static mesh whose only raised flag is `invisible`. -/
def smInvisible : StaticMesh := { invisible := true }

/-- A valid classified spot light with default transform data. -/
def gLight₁₀ : GameLight := { type := .str "SpotLightComponent", entity_name := .str "Lamp" }

/-- The light object `import_light` creates for a light `g` of the given bpy
light kind whose stored rotation triple is (r1, r2, r3) degrees. -/
def placedLightObj (M : MathUtils) (g : GameLight) (kind : String) (r1 r2 r3 : ℚ) : LightObject :=
  { name := g.entity_name, kind := kind, scale := g.scale, location := g.pos,
    rotation_mode := "XYZ",
    rotation_euler := ⟨M.radians r1, M.radians r2, M.radians r3⟩,
    color := g.color }

/-!
Characterization lemmas: evaluating the classifiers on the builder records.
-/

theorem readInstanceTransform_mk (M : MathUtils) (p : InstParam) :
    readInstanceTransform M (mkInstanceJson p) = .ok (expectedInstance M p) := by
  rcases p with _ | ⟨t, r, s⟩
  · rfl
  · rcases t with _ | ⟨tx, ty, tz⟩ <;> rcases r with _ | ⟨w, qx, qy, qz⟩ <;>
      rcases s with _ | ⟨sx, sy, sz⟩ <;> rfl

theorem mapM_instances (M : MathUtils) (ps : List InstParam) :
    (ps.map mkInstanceJson).mapM (readInstanceTransform M)
      = .ok (ps.map (expectedInstance M)) := by
  induction ps with
  | nil => rfl
  | cons p ps ih =>
      simp only [List.map_cons, List.mapM_cons, readInstanceTransform_mk, ih]
      rfl

theorem init_static_mk (M : MathUtils) (loc rot scale : Option V3) :
    StaticMesh.init M (mkStaticRecord loc rot scale) "StaticMeshComponent"
      = .ok (expectedStatic M loc rot scale) := by
  rcases loc with _ | ⟨a1, a2, a3⟩ <;> rcases rot with _ | ⟨b1, b2, b3⟩ <;>
    rcases scale with _ | ⟨c1, c2, c3⟩ <;> rfl

theorem instBridge (M : MathUtils) (ps : List InstParam) (loc rot scale : Option V3)
    (h : StaticMesh.init M (mkInstancedRecord loc rot scale (some ps))
           "InstancedStaticMeshComponent"
         = ((ps.map mkInstanceJson).mapM (readInstanceTransform M)).bind
             (fun its => Except.ok (expectedInstanced M loc rot scale its))) :
    StaticMesh.init M (mkInstancedRecord loc rot scale (some ps))
        "InstancedStaticMeshComponent"
      = .ok (expectedInstanced M loc rot scale (ps.map (expectedInstance M))) := by
  rw [h, mapM_instances]
  rfl

theorem init_instanced_mk (M : MathUtils) (loc rot scale : Option V3) (ps : List InstParam) :
    StaticMesh.init M (mkInstancedRecord loc rot scale (some ps))
        "InstancedStaticMeshComponent"
      = .ok (expectedInstanced M loc rot scale (ps.map (expectedInstance M))) := by
  rcases loc with _ | ⟨a1, a2, a3⟩ <;> rcases rot with _ | ⟨b1, b2, b3⟩ <;>
    rcases scale with _ | ⟨c1, c2, c3⟩ <;> exact instBridge M ps _ _ _ rfl

theorem init_light_spot (loc rot scale : Option V3) (temp : Option ℚ) :
    GameLight.init (mkLightRecord "SpotLightComponent" loc rot scale temp)
      = .ok (expectedLight "SpotLightComponent" loc rot scale temp) := by
  rcases loc with _ | ⟨a1, a2, a3⟩ <;> rcases rot with _ | ⟨b1, b2, b3⟩ <;>
    rcases scale with _ | ⟨c1, c2, c3⟩ <;> rcases temp with _ | t <;> rfl

theorem init_light_point (loc rot scale : Option V3) (temp : Option ℚ) :
    GameLight.init (mkLightRecord "PointLightComponent" loc rot scale temp)
      = .ok (expectedLight "PointLightComponent" loc rot scale temp) := by
  rcases loc with _ | ⟨a1, a2, a3⟩ <;> rcases rot with _ | ⟨b1, b2, b3⟩ <;>
    rcases scale with _ | ⟨c1, c2, c3⟩ <;> rcases temp with _ | t <;> rfl

/-!
Claim theorems.
-/

/-- Claim C1, counterexample.  The record `recInvisible` sets only the
advisory flag `invisible` (and no other validity flag), yet `invalid` is true
and the import with an always-succeeding resolver produces zero placed
objects: the Scene Assembler does skip it, contrary to the claim. -/
theorem C1_counterexample :
    (StaticMesh.init M₀ recInvisible "StaticMeshComponent").map
        (fun s => (s.invisible, s.bad_creation_method,
          s.no_entity || s.no_mesh || s.no_path || s.no_per_instance_data
            || s.base_shape || s.not_rendered,
          s.invalid))
      = .ok (true, false, false, true)
    ∧ (MapImporter.import_map M₀ R₀ (.parsed [recInvisible])).map
        (fun r => (r.ret, r.import_collection.length)) = .ok (true, 0) :=
  ⟨rfl, rfl⟩

/-- Claim C1, amended.  An entity with `invisible` or `bad_creation_method`
set is treated as invalid like any other flag: `StaticMesh.invalid` is true
and `link_object_instance` refuses to place it, even when the resolved object
is available. -/
theorem C1_amended (M : MathUtils) (s : StaticMesh) (obj : BlenderObj)
    (h : s.invisible = true ∨ s.bad_creation_method = true) :
    s.invalid = true ∧ s.link_object_instance M obj = [] := by
  have hinv : s.invalid = true := by
    rcases h with h | h <;> simp [StaticMesh.invalid, h]
  refine ⟨hinv, ?_⟩
  simp [StaticMesh.link_object_instance, hinv]

/-- Witness for C1_amended at the concrete entity `smInvisible`. -/
theorem C1_witness :
    smInvisible.invalid = true ∧ smInvisible.link_object_instance M₀ obj₀ = [] :=
  C1_amended M₀ smInvisible obj₀ (Or.inl rfl)

/-- Claim C2, counterexample.  For the light record with Yaw 30 the
classified yaw slot holds 30 * (-1) = -30, not the unnegated 30 the claim
asserts. -/
theorem C2_counterexample :
    (GameLight.init recLightYaw).bind (fun g => g.rot.2.2.toQ) = .ok (30 * (-1))
    ∧ ¬ (GameLight.init recLightYaw).bind (fun g => g.rot.2.2.toQ) = .ok 30 := by
  constructor
  · rfl
  · intro hcontra
    have h0 : (GameLight.init recLightYaw).bind (fun g => g.rot.2.2.toQ)
        = .ok (30 * (-1) : ℚ) := rfl
    rw [h0] at hcontra
    simp only [Except.ok.injEq] at hcontra
    norm_num at hcontra

/-- Claim C2, amended.  The classified light keeps roll and pitch unnegated
but negates yaw at classification time; the degrees-to-radians conversion of
all three components happens in `import_light` at placement time. -/
theorem C2_amended (M : MathUtils) (roll pitch yaw : ℚ) :
    (GameLight.init (mkLightRecord "SpotLightComponent" none (some ⟨roll, pitch, yaw⟩)
        none none)).map (fun g => g.rot)
      = .ok (.num roll, .num pitch, .num (yaw * (-1)))
    ∧ ((GameLight.init (mkLightRecord "SpotLightComponent" none (some ⟨roll, pitch, yaw⟩)
        none none)).bind
          (fun g => g.import_light M)).map
            (fun r => r.target_links.map (fun o => o.rotation_euler))
      = .ok [⟨M.radians roll, M.radians pitch, M.radians (yaw * (-1))⟩] := by
  constructor <;> rfl

/-- Claim C3, counterexample.  A structurally valid record whose
RelativeLocation block is present but lacks its numeric fields does not fall
back to a default: classification raises TypeError (None / 100), and the
exception propagates out of the assembly loop. -/
theorem C3_counterexample :
    StaticMesh.init M₀ recEmptyLoc "StaticMeshComponent" = .error .typeError
    ∧ MapImporter.import_map M₀ R₀ (.parsed [recEmptyLoc]) = .error .typeError :=
  ⟨rfl, rfl⟩

/-- Claim C3, amended.  Classification is total on records whose optional
transform blocks are either absent or carry their required numeric fields:
absent blocks default to position (0,0,0), rotation (0,0,0) and scale
(1,1,1), per-instance elements without TransformData default to the identity
transform, and within a present scale block each absent axis defaults to 1.
When a present block lacks a required inner numeric field (for example
RelativeLocation without X), classification raises TypeError instead of
defaulting (see the counterexample). -/
theorem C3_amended (M : MathUtils) (loc rot scale : Option V3) (temp : Option ℚ)
    (ps : List InstParam) :
    StaticMesh.init M (mkStaticRecord loc rot scale) "StaticMeshComponent"
      = .ok (expectedStatic M loc rot scale)
    ∧ StaticMesh.init M (mkInstancedRecord loc rot scale (some ps))
        "InstancedStaticMeshComponent"
      = .ok (expectedInstanced M loc rot scale (ps.map (expectedInstance M)))
    ∧ GameLight.init (mkLightRecord "PointLightComponent" loc rot scale temp)
      = .ok (expectedLight "PointLightComponent" loc rot scale temp)
    ∧ (StaticMesh.init M recPartialScale "StaticMeshComponent").map
        (fun s => s.transform.scale) = .ok ⟨5, 1, 1⟩ :=
  ⟨init_static_mk M loc rot scale, init_instanced_mk M loc rot scale ps,
   init_light_point loc rot scale temp, rfl⟩

/-- Claim C4, confirmed.  The converted position is exactly
(x/100, -y/100, z/100), and a record with explicit position (100,200,300)
and identity rotation and scale places its object exactly at (1, -2, 3). -/
theorem C4 (M : MathUtils) (x y z : ℚ) :
    (StaticMesh.init M (mkStaticRecord (some ⟨x, y, z⟩) none none)
        "StaticMeshComponent").map (fun s => s.transform.pos)
      = .ok ⟨x / 100, -y / 100, z / 100⟩
    ∧ (MapImporter.import_map M₀ R₀
        (.parsed [mkStaticRecord (some ⟨100, 200, 300⟩) none none])).map
          (fun r => r.import_collection.map SceneItem.meshLocation)
      = .ok [some ⟨1, -2, 3⟩] := by
  constructor
  · rw [init_static_mk]
    show Except.ok (⟨x / 100, y / (-100), z / 100⟩ : V3)
      = .ok ⟨x / 100, -y / 100, z / 100⟩
    norm_num [neg_div, div_neg]
  · show Except.ok [some (⟨100 / 100, 200 / (-100), 300 / 100⟩ : V3)]
      = Except.ok [some (⟨1, -2, 3⟩ : V3)]
    norm_num

/-- Claim C5, confirmed.  For every valid instanced entity the world matrix
of each placed object is the base matrix composed with the instance matrix in
that order, and at the concrete fixtures (B₅ a translation, I₅ a scaling)
that product differs from the instance matrix alone and from the reversed
composition. -/
theorem C5 (M : MathUtils) (s : StaticMesh) (obj : BlenderObj)
    (h1 : s.invalid = false) (h2 : s.is_instanced = true) :
    (s.link_object_instance M obj).map (fun o => o.matrix_world)
      = s.instance_transforms.map
          (fun it => some (M4.mul (s.transform.matrix_4x4 M) (it.matrix_4x4 M)))
    ∧ M4.mul (B₅.matrix_4x4 M₀) (I₅.matrix_4x4 M₀) ≠ I₅.matrix_4x4 M₀
    ∧ M4.mul (B₅.matrix_4x4 M₀) (I₅.matrix_4x4 M₀)
        ≠ M4.mul (I₅.matrix_4x4 M₀) (B₅.matrix_4x4 M₀) := by
  refine ⟨?_, ?_, ?_⟩
  · simp [StaticMesh.link_object_instance, h1, h2, List.map_map]
  · intro hcontra
    have hc := congrArg (fun m => m.r0.c3) hcontra
    simp only [InstanceTransform.matrix_4x4, M₀, B₅, I₅, locScaleMat, M4.mul,
      V4.mulRow, V4.dot, M4.col0, M4.col1, M4.col2, M4.col3] at hc
    norm_num at hc
  · intro hcontra
    have hc := congrArg (fun m => m.r0.c3) hcontra
    simp only [InstanceTransform.matrix_4x4, M₀, B₅, I₅, locScaleMat, M4.mul,
      V4.mulRow, V4.dot, M4.col0, M4.col1, M4.col2, M4.col3] at hc
    norm_num at hc

/-- Witness for C5 at the concrete valid instanced entity `sm₅`. -/
theorem C5_witness :
    (sm₅.link_object_instance M₀ obj₀).map (fun o => o.matrix_world)
      = sm₅.instance_transforms.map
          (fun it => some (M4.mul (sm₅.transform.matrix_4x4 M₀) (it.matrix_4x4 M₀)))
    ∧ M4.mul (B₅.matrix_4x4 M₀) (I₅.matrix_4x4 M₀) ≠ I₅.matrix_4x4 M₀
    ∧ M4.mul (B₅.matrix_4x4 M₀) (I₅.matrix_4x4 M₀)
        ≠ M4.mul (I₅.matrix_4x4 M₀) (B₅.matrix_4x4 M₀) :=
  C5 M₀ sm₅ obj₀ rfl rfl

/-- Claim C6, confirmed.  An instanced record without the PerInstanceSMData
key gets the `no_per_instance_data` flag and is invalid with zero placements;
with the key present but the array empty, the flag stays unset and zero
objects are placed; in general the number of placements equals the number of
per-instance array elements. -/
theorem C6 (M : MathUtils) (obj : BlenderObj) (loc rot scale : Option V3)
    (ps : List InstParam) :
    (StaticMesh.init M (mkInstancedRecord loc rot scale none)
        "InstancedStaticMeshComponent").map
          (fun s => (s.no_per_instance_data, s.invalid, s.link_object_instance M obj))
      = .ok (true, true, [])
    ∧ (StaticMesh.init M (mkInstancedRecord loc rot scale (some []))
        "InstancedStaticMeshComponent").map
          (fun s => (s.no_per_instance_data, s.invalid,
            (s.link_object_instance M obj).length))
      = .ok (false, false, 0)
    ∧ (StaticMesh.init M (mkInstancedRecord loc rot scale (some ps))
        "InstancedStaticMeshComponent").map
          (fun s => (s.instance_transforms.length,
            (s.link_object_instance M obj).length))
      = .ok (ps.length, ps.length) := by
  refine ⟨?_, ?_, ?_⟩
  · rcases loc with _ | ⟨a1, a2, a3⟩ <;> rcases rot with _ | ⟨b1, b2, b3⟩ <;>
      rcases scale with _ | ⟨c1, c2, c3⟩ <;> rfl
  · rw [init_instanced_mk]
    rfl
  · rw [init_instanced_mk]
    simp [Except.map, StaticMesh.link_object_instance, expectedInstanced,
      StaticMesh.invalid, List.length_map]

/-- Claim C7, confirmed.  Below 965 the conversion returns exactly
(4.70366907, 0, 0); at or above 12000 it returns exactly
(0.826270103, 0.994478524, 1.56626022): out-of-range temperatures saturate to
these fixed boundary colors. -/
theorem C7 (T : ℚ) :
    (T < 965 → GameLight.temp_to_color T = ⟨4.70366907, 0, 0⟩)
    ∧ (12000 ≤ T →
        GameLight.temp_to_color T = ⟨0.826270103, 0.994478524, 1.56626022⟩) := by
  constructor
  · intro h
    have h2 : ¬ (12000 ≤ T) := by linarith
    simp only [GameLight.temp_to_color]
    rw [if_neg h2, if_pos h]
  · intro h
    simp only [GameLight.temp_to_color]
    rw [if_pos h]

/-- Witness for C7 at the concrete temperatures 500 and 12000. -/
theorem C7_witness :
    GameLight.temp_to_color 500 = ⟨4.70366907, 0, 0⟩
    ∧ GameLight.temp_to_color 12000 = ⟨0.826270103, 0.994478524, 1.56626022⟩ :=
  ⟨(C7 500).1 (by norm_num), (C7 12000).2 (by norm_num)⟩

/-- Claim C8, confirmed.  For a per-instance element whose TransformData
block carries a Rotation, the quaternion is built from the W, X, Y, Z fields
in that component order, converted to an XYZ Euler triple by the external
library, and the resulting X and Z components are negated with Y unchanged —
for every possible conversion function. -/
theorem C8 (M : MathUtils) (w x y z : ℚ) :
    readInstanceTransform M (mkInstanceJson (some (none, some (w, x, y, z), none)))
      = .ok { rot_euler := ⟨-(M.quatToEulerXYZ w x y z).x, (M.quatToEulerXYZ w x y z).y,
                            -(M.quatToEulerXYZ w x y z).z⟩ }
    ∧ (StaticMesh.init M
         (mkInstancedRecord none none none (some [some (none, some (w, x, y, z), none)]))
         "InstancedStaticMeshComponent").map (fun s => s.instance_transforms)
      = .ok [{ rot_euler := ⟨-(M.quatToEulerXYZ w x y z).x, (M.quatToEulerXYZ w x y z).y,
               -(M.quatToEulerXYZ w x y z).z⟩ }] := by
  constructor
  · rfl
  · rw [init_instanced_mk]
    rfl

/-- Claim C9, counterexample.  A parsed source whose first record is an
invalid light (a PointLightComponent without Properties) makes the import
raise NameError — the skip diagnostic reads the unbound local static_mesh —
instead of skipping the entity and returning true as the claim asserts. -/
theorem C9_counterexample :
    MapImporter.import_map M₀ R₀ (.parsed [recBadLight]) = .error .nameError :=
  rfl

/-- Claim C9, amended.  The import returns false exactly when the source
file is missing; an unparsable document raises instead of returning false.
A mesh validity-flag failure or asset-resolution miss only skips that entity
and later records are still processed with the result true (here the
unresolvable recMeshA is skipped while recMeshB is still placed); an invalid
light record is skipped only when some static-mesh-family record was
classified earlier in the run (recMeshA before recBadLight), else the skip
diagnostic raises NameError (see the counterexample). -/
theorem C9_amended (M : MathUtils) (resolve : String → Option BlenderObj) :
    MapImporter.import_map M resolve .missing = .ok { ret := false }
    ∧ MapImporter.import_map M resolve .unparsable = .error .jsonError
    ∧ (MapImporter.import_map M₀ R₂ (.parsed [recMeshA, recMeshB])).map
        (fun r => (r.ret, r.import_collection.map SceneItem.itemName))
      = .ok (true, ["MeshB"])
    ∧ (MapImporter.import_map M₀ R₂ (.parsed [recMeshA, recBadLight, recGoodLight])).map
        (fun r => (r.ret, r.import_collection.length, r.scene_extra_links.length,
          r.reload_scheduled))
      = .ok (true, 1, 1, true) :=
  ⟨rfl, rfl, rfl, rfl⟩

/-- Claim C10, confirmed.  Importing a valid light links the created light
object into two collections: the target collection passed to import_light
and, additionally, the scene root collection — the same object in both. -/
theorem C10 (M : MathUtils) (g : GameLight) (r1 r2 r3 : ℚ)
    (hval : g.no_entity = false)
    (hty : g.type = .str "SpotLightComponent" ∨ g.type = .str "PointLightComponent")
    (hrot : g.rot = (.num r1, .num r2, .num r3)) :
    ∃ o : LightObject,
      g.import_light M = .ok { ret := true, target_links := [o], scene_links := [o] } := by
  rcases hty with h | h
  · refine ⟨placedLightObj M g "SPOT" r1 r2 r3, ?_⟩
    simp [GameLight.import_light, hval, h, hrot, JValue.toQ, placedLightObj]
    rfl
  · refine ⟨placedLightObj M g "POINT" r1 r2 r3, ?_⟩
    simp [GameLight.import_light, hval, h, hrot, JValue.toQ, placedLightObj]
    rfl

/-- Witness for C10 at the concrete valid spot light `gLight₁₀`. -/
theorem C10_witness :
    ∃ o : LightObject,
      gLight₁₀.import_light M₀ = .ok { ret := true, target_links := [o], scene_links := [o] } :=
  C10 M₀ gLight₁₀ 0 0 0 rfl (Or.inl rfl) rfl
